import Mathlib

/-!
Verification of `lib/k8s.py` from the eks-rolling-update repository.

The Python module is shallowly embedded below.  Network effects are made
explicit: the sequence of snapshots returned by successive `get_k8s_nodes`
calls is a parameter `fetch : Nat → List K8sNode`, the outcome of a mutating
API call is a boolean parameter (`api_raises`), and the functions return
traces of the calls they issued.  A Python exception escaping a function or a
`sys.exit` is represented in the result type; a read of an unbound local
variable (Python `UnboundLocalError`) is represented by `none`.
-/

/-- Mirror of the `metadata` object of a Kubernetes node: only the `name`
field is read by the module. -/
structure NodeMetadata where
  name : String
deriving DecidableEq

/-- Mirror of the `spec` object of a Kubernetes node.  `provider_id` is
`Option String` because the Python attribute may be `None`; the code performs
`instance_id in k8s_node.spec.provider_id`, which raises `TypeError` when the
field is `None`. -/
structure NodeSpec where
  provider_id : Option String
deriving DecidableEq

/-- Mirror of one entry of `node.status.conditions`: a `type` and a `status`,
both strings in the Kubernetes API (`status` is `"True"`, `"False"` or
`"Unknown"` but the code only compares it to the two literals). -/
structure NodeCondition where
  type : String
  status : String
deriving DecidableEq

/-- Mirror of the `status` object of a Kubernetes node. -/
structure NodeStatus where
  conditions : List NodeCondition
deriving DecidableEq

/-- Mirror of a Kubernetes node object as consumed by `lib/k8s.py`. -/
structure K8sNode where
  metadata : NodeMetadata
  spec : NodeSpec
  status : NodeStatus
deriving DecidableEq

/-- `listIsPre needle hay` holds when `needle` is an initial segment of
`hay`; helper for the Python substring test. -/
def listIsPre : List Char → List Char → Bool
  | [], _ => true
  | _ :: _, [] => false
  | a :: as, b :: bs => a == b && listIsPre as bs

/-- `listInString needle hay` is Python's `needle in hay` on the underlying
character lists: `needle` occurs contiguously somewhere in `hay` (the empty
needle occurs in every string). -/
def listInString (needle : List Char) : List Char → Bool
  | [] => needle.isEmpty
  | c :: rest => listIsPre needle (c :: rest) || listInString needle rest

/-- Python's substring operator `needle in hay` on strings. -/
def strIn (needle hay : String) : Bool :=
  listInString needle.data hay.data

/-- Outcomes of `get_node_by_instance_id` that are not a normal return:
`typeError` models the Python `TypeError` raised by `instance_id in None`
when a node's `spec.provider_id` is absent; `nodeNotFound` models the
`Exception("Could not find a k8s node name for that instance id. Exiting")`
raised when the final `node_name` is falsy. -/
inductive ResolveErr where
  | typeError
  | nodeNotFound
deriving DecidableEq

/-- The `for k8s_node in k8s_nodes:` loop of `get_node_by_instance_id`:
`acc` is the current value of the `node_name` local (initially `""`).  Each
node whose `provider_id` contains `instance_id` overwrites `acc`; a node with
an absent `provider_id` raises `TypeError` at that point of the scan. -/
def resolve_scan (instance_id : String) : List K8sNode → String → Except ResolveErr String
  | [], acc => .ok acc
  | n :: rest, acc =>
    match n.spec.provider_id with
    | none => .error .typeError
    | some pid =>
      resolve_scan instance_id rest (if strIn instance_id pid then n.metadata.name else acc)

/-- Embedding of `get_node_by_instance_id(k8s_nodes, instance_id)`: scan the
snapshot keeping the last match in `node_name`, then `if not node_name:`
raise (the truthiness test — an empty string is falsy). -/
def get_node_by_instance_id (k8s_nodes : List K8sNode) (instance_id : String) :
    Except ResolveErr String :=
  match resolve_scan instance_id k8s_nodes "" with
  | .error e => .error e
  | .ok node_name => if node_name = "" then .error .nodeNotFound else .ok node_name

/-- A node matches an instance id when its `provider_id` is present and
contains the id as a substring (the successful branch of the Python `in`
test). -/
def nodeMatches (instance_id : String) (n : K8sNode) : Bool :=
  match n.spec.provider_id with
  | none => false
  | some pid => strIn instance_id pid

/-- Observable outcome of `modify_k8s_autoscaler`: `patched` is the
`replicas` value sent in the merge-patch body (`none` when no API call was
issued), `exited` is the `sys.exit` code (`none` when the function returns
normally). -/
structure AutoscalerTrace where
  patched : Option Nat
  exited : Option Nat
deriving DecidableEq

/-- Embedding of `modify_k8s_autoscaler(action)`.  `action == 'pause'` builds
the body `{'spec': {'replicas': 0}}`; `action == 'resume'` builds
`{'spec': {'replicas': 2}}` (a literal constant in the source); any other
action logs and `sys.exit(1)` before any API call.  When the patch call
raises `ApiException` (`api_raises = true`) the error is logged and the
process exits with code 1. -/
def modify_k8s_autoscaler (action : String) (api_raises : Bool) : AutoscalerTrace :=
  if action = "pause" then
    { patched := some 0, exited := if api_raises then some 1 else none }
  else if action = "resume" then
    { patched := some 2, exited := if api_raises then some 1 else none }
  else
    { patched := none, exited := some 1 }

/-- The delete call issued by `delete_node`: with `DRY_RUN` set the call
carries `dry_run="true"`, otherwise it is a real deletion. -/
inductive DeleteApiCall where
  | real (node_name : String)
  | dryRunOnly (node_name : String)
deriving DecidableEq

/-- Observable outcome of `delete_node`: which API call was issued, whether
the `"Node deleted"` success line was logged, whether the
`"Exception when calling CoreV1Api->delete_node"` line was logged, and the
`sys.exit` code (`none` when the function returns normally). -/
structure DeleteTrace where
  apiCall : DeleteApiCall
  loggedDeleted : Bool
  loggedException : Bool
  exited : Option Nat
deriving DecidableEq

/-- Embedding of `delete_node(node_name)` with `DRY_RUN` and the API outcome
explicit.  The `try` block issues the delete and logs `"Node deleted"`; the
`except ApiException` handler only logs the exception — the function then
falls off the end and returns normally in both cases. -/
def delete_node (node_name : String) (dry_run : Bool) (api_raises : Bool) : DeleteTrace :=
  { apiCall := if dry_run then .dryRunOnly node_name else .real node_name
  , loggedDeleted := !api_raises
  , loggedException := api_raises
  , exited := none }

/-- The update applied to the `healthy_nodes` flag by one iteration of the
inner `for condition in conditions:` loop of `k8s_nodes_ready`: a
`Ready`/`False` condition sets the flag to `False`; the `Ready`/`True`
branch only logs; every other condition leaves the flag unchanged. -/
def condStep (h : Bool) (c : NodeCondition) : Bool :=
  if c.type = "Ready" ∧ c.status = "False" then false else h

/-- The per-snapshot health computation of one `while` iteration of
`k8s_nodes_ready`: `healthy_nodes` is reset to `True`, then both nested
`for` loops run over every node and every condition. -/
def snapshotHealthy (nodes : List K8sNode) : Bool :=
  nodes.foldl (fun h n => n.status.conditions.foldl condStep h) true

/-- The `while retry_count < max_retry:` loop of `k8s_nodes_ready`.  `idx`
counts the `get_k8s_nodes()` fetches already performed, `fuel` is the number
of loop iterations left (`max_retry - retry_count`), `acc` is the current
value of the `healthy_nodes` local (`none` while still unbound).  The result
pairs the value returned by the function (`none` for the `UnboundLocalError`
raised when the loop body never ran) with the number of fetches performed. -/
def k8s_ready_loop (fetch : Nat → List K8sNode) :
    Nat → Nat → Option Bool → Option Bool × Nat
  | idx, 0, acc => (acc, idx)
  | idx, fuel + 1, _ =>
    if snapshotHealthy (fetch idx) then (some true, idx + 1)
    else k8s_ready_loop fetch (idx + 1) fuel (some false)

/-- Embedding of `k8s_nodes_ready(max_retry, wait)`: `retry_count` starts at
1, so the loop body runs `max_retry - 1` times; the sleep between attempts is
not modelled.  Returns the function result (`none` = `UnboundLocalError`)
and the number of fetches performed. -/
def k8s_nodes_ready (fetch : Nat → List K8sNode) (max_retry : Nat) : Option Bool × Nat :=
  k8s_ready_loop fetch 0 (max_retry - 1) none

/-- The `while retry_count < max_retry:` loop of `k8s_nodes_count`, with the
same conventions as `k8s_ready_loop`; `acc` is the `nodes_online` local. -/
def k8s_count_loop (desired : Nat) (fetch : Nat → List K8sNode) :
    Nat → Nat → Option Bool → Option Bool × Nat
  | idx, 0, acc => (acc, idx)
  | idx, fuel + 1, _ =>
    if (fetch idx).length ≠ desired then k8s_count_loop desired fetch (idx + 1) fuel (some false)
    else (some true, idx + 1)

/-- Embedding of `k8s_nodes_count(desired_node_count, max_retry, wait)`:
`retry_count` starts at 1, so the loop body runs `max_retry - 1` times.
Returns the function result (`none` = `UnboundLocalError`) and the number of
fetches performed. -/
def k8s_nodes_count (desired : Nat) (fetch : Nat → List K8sNode) (max_retry : Nat) :
    Option Bool × Nat :=
  k8s_count_loop desired fetch 0 (max_retry - 1) none

/-- Definition following the spec's words for the duplicate-`Ready` claim:
"at most one condition record per type is authoritative per snapshot (last
one observed for a type wins)" — the status of the last condition of type
`Ready` in the sequence, if any. -/
def lastReadyStatus (conds : List NodeCondition) : Option String :=
  conds.foldl (fun acc c => if c.type = "Ready" then some c.status else acc) none

/-- Definition following the spec's words: under "last one per type wins" a
node is unhealthy exactly when its authoritative (last) `Ready` condition has
status `"False"`. -/
def lastReadyUnhealthy (conds : List NodeCondition) : Bool :=
  lastReadyStatus conds == some "False"

/-- Both polling loops share this shape: `p i` is whether the `i`-th fetched
snapshot passes the convergence check. -/
def pollLoop (p : Nat → Bool) : Nat → Nat → Option Bool → Option Bool × Nat
  | idx, 0, acc => (acc, idx)
  | idx, fuel + 1, _ =>
    if p idx then (some true, idx + 1) else pollLoop p (idx + 1) fuel (some false)

theorem k8s_ready_loop_eq_pollLoop (fetch : Nat → List K8sNode) :
    ∀ fuel idx acc, k8s_ready_loop fetch idx fuel acc =
      pollLoop (fun i => snapshotHealthy (fetch i)) idx fuel acc := by
  intro fuel
  induction fuel with
  | zero => intro idx acc; rfl
  | succ n ih =>
    intro idx acc
    simp only [k8s_ready_loop, pollLoop]
    by_cases h : snapshotHealthy (fetch idx)
    · simp [h]
    · simp [h, ih]

theorem k8s_count_loop_eq_pollLoop (desired : Nat) (fetch : Nat → List K8sNode) :
    ∀ fuel idx acc, k8s_count_loop desired fetch idx fuel acc =
      pollLoop (fun i => (fetch i).length == desired) idx fuel acc := by
  intro fuel
  induction fuel with
  | zero => intro idx acc; rfl
  | succ n ih =>
    intro idx acc
    simp only [k8s_count_loop, pollLoop]
    by_cases h : (fetch idx).length = desired
    · simp [h]
    · simp [h, ih]

theorem pollLoop_exhaust (p : Nat → Bool) :
    ∀ fuel idx acc, 0 < fuel → (∀ j, j < fuel → p (idx + j) = false) →
      pollLoop p idx fuel acc = (some false, idx + fuel) := by
  intro fuel
  induction fuel with
  | zero => intro idx acc h; omega
  | succ n ih =>
    intro idx acc _ hfail
    have h0 : p idx = false := by simpa using hfail 0 (Nat.succ_pos n)
    simp only [pollLoop, h0, Bool.false_eq_true, if_false]
    cases n with
    | zero => simp [pollLoop]
    | succ m =>
      have := ih (idx + 1) (some false) (Nat.succ_pos m)
        (fun j hj => by
          have := hfail (j + 1) (by omega)
          simpa [Nat.add_assoc, Nat.add_comm 1 j] using this)
      rw [this]
      congr 1
      omega

theorem pollLoop_hit (p : Nat → Bool) :
    ∀ fuel idx acc i, i < fuel → (∀ j, j < i → p (idx + j) = false) →
      p (idx + i) = true →
      pollLoop p idx fuel acc = (some true, idx + i + 1) := by
  intro fuel
  induction fuel with
  | zero => intro idx acc i h; omega
  | succ n ih =>
    intro idx acc i hi hbefore hhit
    cases i with
    | zero =>
      have h0 : p idx = true := by simpa using hhit
      simp [pollLoop, h0]
    | succ k =>
      have h0 : p idx = false := by simpa using hbefore 0 (Nat.succ_pos k)
      simp only [pollLoop, h0, Bool.false_eq_true, if_false]
      have := ih (idx + 1) (some false) k (by omega)
        (fun j hj => by
          have := hbefore (j + 1) (by omega)
          simpa [Nat.add_assoc, Nat.add_comm 1 j] using this)
        (by
          have : idx + 1 + k = idx + (k + 1) := by omega
          rw [this]; exact hhit)
      rw [this]
      congr 1
      omega

theorem pollLoop_pos_some (p : Nat → Bool) :
    ∀ fuel idx acc, 0 < fuel →
      (pollLoop p idx fuel acc).1 = some true ∨ (pollLoop p idx fuel acc).1 = some false := by
  intro fuel
  induction fuel with
  | zero => intro idx acc h; omega
  | succ n ih =>
    intro idx acc _
    by_cases h : p idx
    · left; simp [pollLoop, h]
    · simp only [pollLoop, h, Bool.false_eq_true, if_false]
      cases n with
      | zero => right; rfl
      | succ m => exact ih (idx + 1) (some false) (Nat.succ_pos m)

theorem pollLoop_true_iff (p : Nat → Bool) :
    ∀ fuel idx acc, acc ≠ some true →
      ((pollLoop p idx fuel acc).1 = some true ↔ ∃ i, i < fuel ∧ p (idx + i) = true) := by
  intro fuel
  induction fuel with
  | zero =>
    intro idx acc hacc
    simp only [pollLoop]
    constructor
    · intro h; exact absurd h hacc
    · rintro ⟨i, hi, _⟩; omega
  | succ n ih =>
    intro idx acc _
    by_cases h : p idx
    · simp only [pollLoop, h, if_true]
      constructor
      · intro _; exact ⟨0, Nat.succ_pos n, by simpa using h⟩
      · intro _; trivial
    · simp only [pollLoop, h, Bool.false_eq_true, if_false]
      rw [ih (idx + 1) (some false) (by simp)]
      constructor
      · rintro ⟨i, hi, hp⟩
        refine ⟨i + 1, by omega, ?_⟩
        have : idx + (i + 1) = idx + 1 + i := by omega
        rw [this]; exact hp
      · rintro ⟨i, hi, hp⟩
        cases i with
        | zero => exact absurd (by simpa using hp) (by simpa using h)
        | succ k =>
          refine ⟨k, by omega, ?_⟩
          have : idx + 1 + k = idx + (k + 1) := by omega
          rw [this]; exact hp

/-- The overwrite performed by one scan step of `get_node_by_instance_id` on
the `node_name` local. -/
def nameUpd (iid : String) (acc : String) (n : K8sNode) : String :=
  if nodeMatches iid n then n.metadata.name else acc

theorem resolve_scan_ok (iid : String) :
    ∀ (nodes : List K8sNode) (acc : String), (∀ n ∈ nodes, n.spec.provider_id ≠ none) →
      resolve_scan iid nodes acc = .ok (nodes.foldl (nameUpd iid) acc) := by
  intro nodes
  induction nodes with
  | nil => intro acc _; rfl
  | cons n rest ih =>
    intro acc hp
    rcases hpid : n.spec.provider_id with _ | pid
    · exact absurd hpid (hp n (List.mem_cons_self n rest))
    · have hrest : ∀ m ∈ rest, m.spec.provider_id ≠ none :=
        fun m hm => hp m (List.mem_cons_of_mem n hm)
      simp only [resolve_scan, hpid, List.foldl_cons]
      rw [ih _ hrest]
      have : nameUpd iid acc n = if strIn iid pid then n.metadata.name else acc := by
        simp [nameUpd, nodeMatches, hpid]
      rw [this]

theorem resolve_scan_type_error (iid : String) :
    ∀ (nodes : List K8sNode) (acc : String), (∃ n ∈ nodes, n.spec.provider_id = none) →
      resolve_scan iid nodes acc = .error .typeError := by
  intro nodes
  induction nodes with
  | nil => rintro acc ⟨n, hn, _⟩; exact absurd hn (List.not_mem_nil n)
  | cons n rest ih =>
    rintro acc ⟨m, hm, hnone⟩
    rcases hpid : n.spec.provider_id with _ | pid
    · simp [resolve_scan, hpid]
    · rcases List.mem_cons.mp hm with rfl | hm'
      · exact absurd hnone (by simp [hpid])
      · simp only [resolve_scan, hpid]
        exact ih _ ⟨m, hm', hnone⟩

theorem foldl_nameUpd_no_match (iid : String) :
    ∀ (nodes : List K8sNode) (acc : String), (∀ n ∈ nodes, nodeMatches iid n = false) →
      nodes.foldl (nameUpd iid) acc = acc := by
  intro nodes
  induction nodes with
  | nil => intro acc _; rfl
  | cons n rest ih =>
    intro acc hno
    have h0 : nodeMatches iid n = false := hno n (List.mem_cons_self n rest)
    simp only [List.foldl_cons, nameUpd, h0, Bool.false_eq_true, if_false]
    exact ih acc fun m hm => hno m (List.mem_cons_of_mem n hm)

theorem foldl_nameUpd_empty_iff (iid : String) :
    ∀ (nodes : List K8sNode) (acc : String), (∀ n ∈ nodes, n.metadata.name ≠ "") →
      (nodes.foldl (nameUpd iid) acc = "" ↔
        acc = "" ∧ ∀ n ∈ nodes, nodeMatches iid n = false) := by
  intro nodes
  induction nodes with
  | nil => intro acc _; simp
  | cons n rest ih =>
    intro acc hne
    have hn : n.metadata.name ≠ "" := hne n (List.mem_cons_self n rest)
    have hrest : ∀ m ∈ rest, m.metadata.name ≠ "" :=
      fun m hm => hne m (List.mem_cons_of_mem n hm)
    simp only [List.foldl_cons]
    rw [ih _ hrest]
    by_cases hm : nodeMatches iid n
    · simp only [nameUpd, hm, if_true]
      constructor
      · rintro ⟨h, _⟩; exact absurd h hn
      · rintro ⟨_, hall⟩
        exact absurd (hall n (List.mem_cons_self n rest)) (by simp [hm])
    · simp only [nameUpd, hm, if_false]
      constructor
      · rintro ⟨h, hall⟩
        refine ⟨h, fun m hmem => ?_⟩
        rcases List.mem_cons.mp hmem with rfl | hmem'
        · simpa using hm
        · exact hall m hmem'
      · rintro ⟨h, hall⟩
        exact ⟨h, fun m hmem => hall m (List.mem_cons_of_mem n hmem)⟩

/-- One scanned condition is a `Ready`/`False` record. -/
def readyFalse (c : NodeCondition) : Bool :=
  c.type == "Ready" && c.status == "False"

theorem foldl_condStep (conds : List NodeCondition) :
    ∀ b : Bool, conds.foldl condStep b = (b && !conds.any readyFalse) := by
  induction conds with
  | nil => intro b; simp
  | cons c rest ih =>
    intro b
    simp only [List.foldl_cons, List.any_cons, ih]
    by_cases hc : c.type = "Ready" ∧ c.status = "False"
    · simp [condStep, readyFalse, hc.1, hc.2]
    · have : readyFalse c = false := by
        simp only [readyFalse, Bool.and_eq_false_iff, beq_eq_false_iff_ne]
        by_cases h1 : c.type = "Ready"
        · right; intro h2; exact hc ⟨h1, h2⟩
        · left; exact h1
      simp [condStep, hc, this]

theorem snapshotHealthy_eq_not_any (nodes : List K8sNode) :
    snapshotHealthy nodes = !nodes.any (fun n => n.status.conditions.any readyFalse) := by
  have general : ∀ (l : List K8sNode) (b : Bool),
      l.foldl (fun h n => n.status.conditions.foldl condStep h) b =
        (b && !l.any (fun n => n.status.conditions.any readyFalse)) := by
    intro l
    induction l with
    | nil => intro b; simp
    | cons n rest ih =>
      intro b
      rw [List.foldl_cons, ih (n.status.conditions.foldl condStep b), foldl_condStep,
        List.any_cons]
      cases b <;> cases hn : n.status.conditions.any readyFalse <;> simp [hn]
  simpa using general nodes true

theorem snapshotHealthy_false_iff (nodes : List K8sNode) :
    snapshotHealthy nodes = false ↔
      ∃ n ∈ nodes, ∃ c ∈ n.status.conditions, c.type = "Ready" ∧ c.status = "False" := by
  rw [snapshotHealthy_eq_not_any]
  simp [readyFalse, List.any_eq_true]

/-- Claim C1, counterexample: with `DRY_RUN = false` and the cluster API
delete call raising `ApiException`, `delete_node` logs the exception but
returns normally (`exited = none`, no `sys.exit`, no re-raise) — the claimed
process termination does not happen. -/
theorem c1_counterexample :
    (delete_node "ip-10-0-0-1" false true).exited = none ∧
    (delete_node "ip-10-0-0-1" false true).loggedException = true := ⟨rfl, rfl⟩

/-- Claim C1 as amended: for every node name, when the cluster API delete
call raises `ApiException`, `delete_node` logs the failure, skips the
success log line, and returns normally — the exception is swallowed, with no
retry and no process termination. -/
theorem c1_delete_failure_swallowed (node_name : String) (dry_run : Bool) :
    (delete_node node_name dry_run true).loggedException = true ∧
    (delete_node node_name dry_run true).loggedDeleted = false ∧
    (delete_node node_name dry_run true).exited = none := ⟨rfl, rfl, rfl⟩

/-- Claim C2, counterexample: with a configured resumed-replica value of 3,
the Resume action does not patch the deployment to 3 — the patch body always
carries the literal 2. -/
theorem c2_counterexample :
    (modify_k8s_autoscaler "resume" false).patched = some 2 ∧
    (modify_k8s_autoscaler "resume" false).patched ≠ some 3 := by
  refine ⟨by simp [modify_k8s_autoscaler], by simp [modify_k8s_autoscaler]⟩

/-- Claim C2 as amended: the Pause action patches the autoscaler deployment
replica count to 0 and the Resume action patches it to the hardcoded
constant 2, regardless of any configured resumed value; any other action
exits with code 1 before issuing any API call. -/
theorem c2_autoscaler_patch_values (api_raises : Bool) :
    (modify_k8s_autoscaler "pause" api_raises).patched = some 0 ∧
    (modify_k8s_autoscaler "resume" api_raises).patched = some 2 ∧
    ∀ action : String, action ≠ "pause" → action ≠ "resume" →
      modify_k8s_autoscaler action api_raises = { patched := none, exited := some 1 } := by
  refine ⟨by simp [modify_k8s_autoscaler], by simp [modify_k8s_autoscaler], ?_⟩
  intro action h1 h2
  simp [modify_k8s_autoscaler, h1, h2]

/-- Witness for claim C2's amended theorem at the concrete invalid action
`"stop"`. -/
theorem c2_witness :
    modify_k8s_autoscaler "stop" false = { patched := none, exited := some 1 } :=
  (c2_autoscaler_patch_values false).2.2 "stop" (by decide) (by decide)

/-- Claim C3, counterexample: with `max_retry = 1` the attempt budget allows
zero fetch/check cycles, the `while` body never runs, and both functions
raise `UnboundLocalError` on `return healthy_nodes` / `return nodes_online`
(modelled as `none`) instead of returning a boolean. -/
theorem c3_counterexample :
    (k8s_nodes_ready (fun _ => []) 1).1 = none ∧
    (k8s_nodes_count 5 (fun _ => []) 1).1 = none := ⟨rfl, rfl⟩

/-- Claim C3 as amended: whenever the budget allows at least one fetch/check
cycle (`max_retry ≥ 2`), exhausting the budget never fails with an error —
both functions return a boolean the caller must check; in the degenerate
case `max_retry ≤ 1` the loop body never runs and both functions fail with
an unbound-local error (`none`) instead of returning a boolean. -/
theorem c3_poll_budget_behavior (fetchR fetchC : Nat → List K8sNode)
    (desired max_retry : Nat) :
    (2 ≤ max_retry →
      (∃ b, (k8s_nodes_ready fetchR max_retry).1 = some b) ∧
      (∃ b, (k8s_nodes_count desired fetchC max_retry).1 = some b)) ∧
    (max_retry ≤ 1 →
      (k8s_nodes_ready fetchR max_retry).1 = none ∧
      (k8s_nodes_count desired fetchC max_retry).1 = none) := by
  constructor
  · intro h2
    have hf : 0 < max_retry - 1 := by omega
    constructor
    · unfold k8s_nodes_ready
      rw [k8s_ready_loop_eq_pollLoop]
      rcases pollLoop_pos_some (fun i => snapshotHealthy (fetchR i)) (max_retry - 1) 0 none hf
        with h | h
      · exact ⟨true, h⟩
      · exact ⟨false, h⟩
    · unfold k8s_nodes_count
      rw [k8s_count_loop_eq_pollLoop]
      rcases pollLoop_pos_some (fun i => (fetchC i).length == desired) (max_retry - 1) 0 none hf
        with h | h
      · exact ⟨true, h⟩
      · exact ⟨false, h⟩
  · intro h1
    have h0 : max_retry - 1 = 0 := by omega
    unfold k8s_nodes_ready k8s_nodes_count
    rw [h0]
    exact ⟨rfl, rfl⟩

/-- Witness for claim C3's amended theorem: with a budget of 3 both
functions return some boolean. -/
theorem c3_witness :
    (∃ b, (k8s_nodes_ready (fun _ => []) 3).1 = some b) ∧
    (∃ b, (k8s_nodes_count 5 (fun _ => []) 3).1 = some b) :=
  (c3_poll_budget_behavior (fun _ => []) (fun _ => []) 5 3).1 (by norm_num)

/-- Claim C4: for every `max_retry ≥ 2`, when no fetched snapshot ever
passes the check, both polling functions perform exactly `max_retry - 1`
fetch/check cycles (the attempt counter starts at 1 and the loop runs while
`retry_count < max_retry`) and then return `False`. -/
theorem c4_effective_cycles (fetchR fetchC : Nat → List K8sNode)
    (desired max_retry : Nat) (h2 : 2 ≤ max_retry)
    (hR : ∀ i, snapshotHealthy (fetchR i) = false)
    (hC : ∀ i, (fetchC i).length ≠ desired) :
    k8s_nodes_ready fetchR max_retry = (some false, max_retry - 1) ∧
    k8s_nodes_count desired fetchC max_retry = (some false, max_retry - 1) := by
  have hf : 0 < max_retry - 1 := by omega
  constructor
  · unfold k8s_nodes_ready
    rw [k8s_ready_loop_eq_pollLoop]
    have := pollLoop_exhaust (fun i => snapshotHealthy (fetchR i)) (max_retry - 1) 0 none hf
      (fun j _ => hR (0 + j))
    simpa using this
  · unfold k8s_nodes_count
    rw [k8s_count_loop_eq_pollLoop]
    have := pollLoop_exhaust (fun i => (fetchC i).length == desired) (max_retry - 1) 0 none hf
      (fun j _ => beq_eq_false_iff_ne.mpr (hC (0 + j)))
    simpa using this

/-- Witness for claim C4 at the spec's scenario: `max_retry = 3`,
`desired = 5`, every snapshot of length 4 (and, for the readiness check,
every snapshot containing a `Ready`/`False` node) — both functions give up
as `False` after exactly 2 fetches. -/
theorem c4_witness :
    k8s_nodes_ready (fun _ => [⟨⟨"a"⟩, ⟨some "aws:///i-0"⟩, ⟨[⟨"Ready", "False"⟩]⟩⟩]) 3 =
      (some false, 2) ∧
    k8s_nodes_count 5 (fun _ => List.replicate 4 (⟨⟨"a"⟩, ⟨some "aws:///i-0"⟩, ⟨[]⟩⟩ : K8sNode)) 3 =
      (some false, 2) :=
  c4_effective_cycles _ _ 5 3 (by norm_num) (fun _ => by decide) (fun _ => by decide)

theorem get_node_eq_of_scan_ok (nodes : List K8sNode) (iid nm : String)
    (h : resolve_scan iid nodes "" = .ok nm) :
    get_node_by_instance_id nodes iid =
      if nm = "" then .error .nodeNotFound else .ok nm := by
  unfold get_node_by_instance_id
  rw [h]

theorem get_node_eq_of_scan_error (nodes : List K8sNode) (iid : String) (e : ResolveErr)
    (h : resolve_scan iid nodes "" = .error e) :
    get_node_by_instance_id nodes iid = .error e := by
  unfold get_node_by_instance_id
  rw [h]

/-- Claim C5, counterexample: two nodes match the instance id and the last
matching node's name is the empty string; the function does not return that
(last) name — the empty-string sentinel for `node_name` is falsy, so the
scan's result is indistinguishable from "no match" and the `NodeNotFound`
exception is raised instead. -/
theorem c5_counterexample :
    nodeMatches "i-111" ⟨⟨"node-a"⟩, ⟨some "aws:///i-111"⟩, ⟨[]⟩⟩ = true ∧
    nodeMatches "i-111" ⟨⟨""⟩, ⟨some "aws:///i-111"⟩, ⟨[]⟩⟩ = true ∧
    get_node_by_instance_id
      [⟨⟨"node-a"⟩, ⟨some "aws:///i-111"⟩, ⟨[]⟩⟩, ⟨⟨""⟩, ⟨some "aws:///i-111"⟩, ⟨[]⟩⟩]
      "i-111" = .error .nodeNotFound := ⟨rfl, rfl, rfl⟩

/-- Claim C5 as amended: for every snapshot in which all provider-identifier
fields are present, whenever a node matches and no node after it matches
(so it is the last match — this covers both the several-matches and the
exactly-one-match case), `get_node_by_instance_id` returns that node's name,
provided that name is not the empty string (an empty name collides with the
no-match sentinel and raises `NodeNotFound` instead). -/
theorem c5_last_match_wins (pre post : List K8sNode) (lastN : K8sNode) (iid : String)
    (hp : ∀ n ∈ pre ++ lastN :: post, n.spec.provider_id ≠ none)
    (hm : nodeMatches iid lastN = true)
    (hpost : ∀ n ∈ post, nodeMatches iid n = false)
    (hname : lastN.metadata.name ≠ "") :
    get_node_by_instance_id (pre ++ lastN :: post) iid = .ok lastN.metadata.name := by
  have hok := resolve_scan_ok iid (pre ++ lastN :: post) "" hp
  have hupd : nameUpd iid (List.foldl (nameUpd iid) "" pre) lastN = lastN.metadata.name := by
    simp [nameUpd, hm]
  have hfold : List.foldl (nameUpd iid) "" (pre ++ lastN :: post) = lastN.metadata.name := by
    rw [List.foldl_append, List.foldl_cons, hupd,
      foldl_nameUpd_no_match iid post lastN.metadata.name hpost]
  rw [hfold] at hok
  rw [get_node_eq_of_scan_ok _ _ _ hok, if_neg hname]

/-- Witness for claim C5's amended theorem at the spec's scenario:
snapshot `[node-a ↦ aws:///i-111, node-b ↦ aws:///i-222]` and instance id
`i-222` resolve to `node-b`. -/
theorem c5_witness :
    get_node_by_instance_id
      [⟨⟨"node-a"⟩, ⟨some "aws:///i-111"⟩, ⟨[]⟩⟩, ⟨⟨"node-b"⟩, ⟨some "aws:///i-222"⟩, ⟨[]⟩⟩]
      "i-222" = .ok "node-b" :=
  c5_last_match_wins [⟨⟨"node-a"⟩, ⟨some "aws:///i-111"⟩, ⟨[]⟩⟩] []
    ⟨⟨"node-b"⟩, ⟨some "aws:///i-222"⟩, ⟨[]⟩⟩ "i-222"
    (by intro n hn; fin_cases hn <;> simp)
    (by decide) (by intro n hn; cases hn) (by decide)

/-- Claim C6, counterexample: exactly one node matches the instance id, yet
the function fails with `NodeNotFound` because the matching node's name is
the empty string, which is falsy in the `if not node_name:` test. -/
theorem c6_counterexample :
    nodeMatches "i-999" ⟨⟨""⟩, ⟨some "aws:///i-999"⟩, ⟨[]⟩⟩ = true ∧
    get_node_by_instance_id [⟨⟨""⟩, ⟨some "aws:///i-999"⟩, ⟨[]⟩⟩] "i-999" =
      .error .nodeNotFound := ⟨rfl, rfl⟩

/-- Claim C6 as amended: for every snapshot (including the empty snapshot)
whose provider-identifier fields are all present and whose node names are
all non-empty, `get_node_by_instance_id` fails with `NodeNotFound` iff zero
nodes match, and returns a name whenever at least one node matches.  (With
an empty-named matching node the non-empty-name hypothesis fails and so does
the claim: the empty string is also the no-match sentinel.) -/
theorem c6_not_found_iff_no_match (nodes : List K8sNode) (iid : String)
    (hp : ∀ n ∈ nodes, n.spec.provider_id ≠ none)
    (hn : ∀ n ∈ nodes, n.metadata.name ≠ "") :
    (get_node_by_instance_id nodes iid = .error .nodeNotFound ↔
      ∀ n ∈ nodes, nodeMatches iid n = false) ∧
    ((∃ n ∈ nodes, nodeMatches iid n = true) →
      ∃ nm, get_node_by_instance_id nodes iid = .ok nm) := by
  have hok := resolve_scan_ok iid nodes "" hp
  have hiff := foldl_nameUpd_empty_iff iid nodes "" hn
  have heq := get_node_eq_of_scan_ok nodes iid _ hok
  constructor
  · rw [heq]
    by_cases he : List.foldl (nameUpd iid) "" nodes = ""
    · rw [if_pos he]
      constructor
      · intro _; exact (hiff.mp he).2
      · intro _; rfl
    · rw [if_neg he]
      constructor
      · intro h; cases h
      · intro hall; exact absurd (hiff.mpr ⟨rfl, hall⟩) he
  · rintro ⟨n, hmem, hmatch⟩
    have he : List.foldl (nameUpd iid) "" nodes ≠ "" := by
      intro h
      have := (hiff.mp h).2 n hmem
      rw [hmatch] at this
      cases this
    rw [heq, if_neg he]
    exact ⟨_, rfl⟩

/-- Witness for claim C6's amended theorem at the empty snapshot: no node
matches and the function fails with `NodeNotFound`. -/
theorem c6_witness :
    (get_node_by_instance_id [] "i-404" = .error .nodeNotFound ↔
      ∀ n ∈ ([] : List K8sNode), nodeMatches "i-404" n = false) ∧
    ((∃ n ∈ ([] : List K8sNode), nodeMatches "i-404" n = true) →
      ∃ nm, get_node_by_instance_id [] "i-404" = .ok nm) :=
  c6_not_found_iff_no_match [] "i-404" (by intro n hn; cases hn) (by intro n hn; cases hn)

/-- Claim C7: for every desired count and fetch sequence, with a budget
allowing at least one cycle, `k8s_nodes_count` returns `True` exactly when
some snapshot among the `max_retry - 1` it may fetch has exactly the desired
length (no tolerance, no "at least"); it stops at the first such snapshot,
having fetched `i + 1` snapshots; and it returns `False` when no snapshot
within the budget has the desired length. -/
theorem c7_count_exact_match (desired max_retry : Nat) (fetch : Nat → List K8sNode)
    (h2 : 2 ≤ max_retry) :
    ((k8s_nodes_count desired fetch max_retry).1 = some true ↔
      ∃ i, i < max_retry - 1 ∧ (fetch i).length = desired) ∧
    (∀ i, i < max_retry - 1 → (∀ j, j < i → (fetch j).length ≠ desired) →
      (fetch i).length = desired →
      k8s_nodes_count desired fetch max_retry = (some true, i + 1)) ∧
    ((∀ i, i < max_retry - 1 → (fetch i).length ≠ desired) →
      (k8s_nodes_count desired fetch max_retry).1 = some false) := by
  refine ⟨?_, ?_, ?_⟩
  · unfold k8s_nodes_count
    rw [k8s_count_loop_eq_pollLoop,
      pollLoop_true_iff (fun i => (fetch i).length == desired) (max_retry - 1) 0 none (by simp)]
    constructor
    · rintro ⟨i, hi, hp⟩
      exact ⟨i, hi, by simpa using hp⟩
    · rintro ⟨i, hi, hp⟩
      exact ⟨i, hi, by simpa using hp⟩
  · intro i hi hbefore hhit
    unfold k8s_nodes_count
    rw [k8s_count_loop_eq_pollLoop]
    have := pollLoop_hit (fun j => (fetch j).length == desired) (max_retry - 1) 0 none i hi
      (fun j hj => beq_eq_false_iff_ne.mpr (hbefore (0 + j) (by omega)))
      (by simpa using hhit)
    simpa using this
  · intro hall
    unfold k8s_nodes_count
    rw [k8s_count_loop_eq_pollLoop]
    have hf : 0 < max_retry - 1 := by omega
    have := pollLoop_exhaust (fun j => (fetch j).length == desired) (max_retry - 1) 0 none hf
      (fun j hj => beq_eq_false_iff_ne.mpr (hall (0 + j) (by omega)))
    simp [this]

/-- Witness for claim C7 at a concrete input: desired count 0, every
snapshot empty, budget 3 — the first fetch already matches, so the function
returns `True` after exactly one fetch. -/
theorem c7_witness :
    k8s_nodes_count 0 (fun _ => []) 3 = (some true, 1) :=
  (c7_count_exact_match 0 3 (fun _ => []) (by norm_num)).2.1 0 (by norm_num)
    (fun j hj => absurd hj (by omega)) rfl

/-- Claim C8, counterexample: a node with duplicate `Ready` records
`[Ready/False, Ready/True]`.  Under the claimed "last one per type wins"
rule its authoritative `Ready` status is `"True"` (so it would not count
against health), yet the code's verdict for a snapshot holding this node is
unhealthy: the `Ready`/`False` record sets `healthy_nodes = False` and the
later `Ready`/`True` record only logs, never resetting the flag. -/
theorem c8_counterexample :
    lastReadyStatus [⟨"Ready", "False"⟩, ⟨"Ready", "True"⟩] = some "True" ∧
    lastReadyUnhealthy [⟨"Ready", "False"⟩, ⟨"Ready", "True"⟩] = false ∧
    snapshotHealthy
      [⟨⟨"node-dup"⟩, ⟨some "aws:///i-dup"⟩, ⟨[⟨"Ready", "False"⟩, ⟨"Ready", "True"⟩]⟩⟩] =
      false := by
  refine ⟨by decide, by decide, by decide⟩

/-- Claim C8 as amended: the health verdict of `k8s_nodes_ready` is not
determined by the last `Ready` condition — a snapshot is judged unhealthy
exactly when some node carries some condition of type `Ready` with status
`"False"`, anywhere in its sequence (any occurrence wins, duplicates
included); `Ready`/`True` and every other type/status combination never
count against health. -/
theorem c8_any_ready_false_wins (nodes : List K8sNode) :
    snapshotHealthy nodes = false ↔
      ∃ n ∈ nodes, ∃ c ∈ n.status.conditions, c.type = "Ready" ∧ c.status = "False" :=
  snapshotHealthy_false_iff nodes

/-- No condition of a type other than `Ready` produces a `readyFalse`
record. -/
theorem no_ready_any_false (conds : List NodeCondition)
    (h : ∀ c ∈ conds, c.type ≠ "Ready") : conds.any readyFalse = false := by
  rw [List.any_eq_false]
  intro c hc
  simp [readyFalse, beq_eq_false_iff_ne.mpr (h c hc)]

/-- Claim C9: a node whose condition sequence contains no condition of type
`Ready` at all (an empty list included) never counts against health — its
conditions leave the `healthy_nodes` flag untouched — and a fetched snapshot
in which no node has any `Ready` condition is treated as converged:
`k8s_nodes_ready` returns `True` on the first attempt even though no node
reports `Ready`/`True`. -/
theorem c9_no_ready_not_counted (fetch : Nat → List K8sNode) (max_retry : Nat)
    (h2 : 2 ≤ max_retry)
    (hnone : ∀ n ∈ fetch 0, ∀ c ∈ n.status.conditions, c.type ≠ "Ready") :
    (∀ (conds : List NodeCondition) (b : Bool),
      (∀ c ∈ conds, c.type ≠ "Ready") → conds.foldl condStep b = b) ∧
    snapshotHealthy (fetch 0) = true ∧
    k8s_nodes_ready fetch max_retry = (some true, 1) := by
  have hstep : ∀ (conds : List NodeCondition) (b : Bool),
      (∀ c ∈ conds, c.type ≠ "Ready") → conds.foldl condStep b = b := by
    intro conds b hcond
    rw [foldl_condStep, no_ready_any_false conds hcond]
    simp
  have hh : snapshotHealthy (fetch 0) = true := by
    rw [snapshotHealthy_eq_not_any]
    have : (fetch 0).any (fun n => n.status.conditions.any readyFalse) = false := by
      rw [List.any_eq_false]
      intro n hnmem
      simp [no_ready_any_false n.status.conditions (hnone n hnmem)]
    simp [this]
  refine ⟨hstep, hh, ?_⟩
  unfold k8s_nodes_ready
  rw [k8s_ready_loop_eq_pollLoop]
  have hf : 0 < max_retry - 1 := by omega
  have := pollLoop_hit (fun i => snapshotHealthy (fetch i)) (max_retry - 1) 0 none 0 hf
    (fun j hj => absurd hj (by omega)) (by simpa using hh)
  simpa using this

/-- Witness for claim C9: a snapshot whose only node carries only a
`DiskPressure` condition converges immediately with budget 2. -/
theorem c9_witness :
    (∀ (conds : List NodeCondition) (b : Bool),
      (∀ c ∈ conds, c.type ≠ "Ready") → conds.foldl condStep b = b) ∧
    snapshotHealthy [⟨⟨"fresh"⟩, ⟨some "aws:///i-5"⟩, ⟨[⟨"DiskPressure", "False"⟩]⟩⟩] = true ∧
    k8s_nodes_ready (fun _ => [⟨⟨"fresh"⟩, ⟨some "aws:///i-5"⟩, ⟨[⟨"DiskPressure", "False"⟩]⟩⟩]) 2 =
      (some true, 1) :=
  c9_no_ready_not_counted
    (fun _ => [⟨⟨"fresh"⟩, ⟨some "aws:///i-5"⟩, ⟨[⟨"DiskPressure", "False"⟩]⟩⟩]) 2
    (by norm_num) (by intro n hn c hc; fin_cases hn; fin_cases hc; decide)

/-- Claim C10: for every snapshot and instance id, if some node's
provider-identifier field is absent (`None`), `get_node_by_instance_id`
fails with a `TypeError` from the substring test — it neither skips that
node nor reports `NodeNotFound`; and when every node's field is a present
string the `TypeError` cannot occur. -/
theorem c10_absent_provider_id_type_error (nodes : List K8sNode) (iid : String) :
    ((∃ n ∈ nodes, n.spec.provider_id = none) →
      get_node_by_instance_id nodes iid = .error .typeError) ∧
    ((∀ n ∈ nodes, n.spec.provider_id ≠ none) →
      get_node_by_instance_id nodes iid ≠ .error .typeError) := by
  constructor
  · intro hex
    exact get_node_eq_of_scan_error nodes iid .typeError
      (resolve_scan_type_error iid nodes "" hex)
  · intro hall
    rw [get_node_eq_of_scan_ok nodes iid _ (resolve_scan_ok iid nodes "" hall)]
    by_cases he : List.foldl (nameUpd iid) "" nodes = ""
    · rw [if_pos he]
      intro h
      cases h
    · rw [if_neg he]
      intro h
      cases h

/-- Witness for claim C10: a snapshot whose second node lacks a provider id
makes the resolver fail with `TypeError` even though the first node
matches. -/
theorem c10_witness :
    get_node_by_instance_id
      [⟨⟨"node-a"⟩, ⟨some "aws:///i-7"⟩, ⟨[]⟩⟩, ⟨⟨"node-b"⟩, ⟨none⟩, ⟨[]⟩⟩] "i-7" =
      .error .typeError :=
  (c10_absent_provider_id_type_error
      [⟨⟨"node-a"⟩, ⟨some "aws:///i-7"⟩, ⟨[]⟩⟩, ⟨⟨"node-b"⟩, ⟨none⟩, ⟨[]⟩⟩] "i-7").1
    ⟨⟨⟨"node-b"⟩, ⟨none⟩, ⟨[]⟩⟩, by simp, rfl⟩
